import Mathlib

/-!
Shallow embedding of the bioforge simulation engine
(crates bioforge-schemas and bioforge-core, file simulation/engine.rs).

Modelling conventions:
* Rust f64 values are modelled as exact rationals.
* The f64 exponential is modelled as an explicit function parameter
  fexp; theorems that need facts about it take them as hypotheses.
* Rust HashMap fields are modelled as association lists; iteration is
  in list order (one fixed order of the arbitrary HashMap order; none
  of the proved properties depends on the order).
* A Rust panic (out-of-bounds index, unwrap of None) is modelled by
  the RunResult.panicked outcome, distinct from RunResult.error which
  models a returned BioforgeError.
-/

namespace Bioforge

/-- Mirrors bioforge_schemas::environment::Measurement with f64 value. -/
structure Measurement where
  value : ℚ
  unit : String
deriving DecidableEq

/-- Mirrors bioforge_schemas::environment::DissolvedComponent. -/
structure DissolvedComponent where
  molecule_id : String
  molecule_name : String
  concentration : Measurement
deriving DecidableEq

/-- Mirrors bioforge_schemas::environment::DissolvedGas. -/
structure DissolvedGas where
  gas_id : String
  gas_name : String
  concentration : Measurement
deriving DecidableEq

/-- Mirrors bioforge_schemas::environment::MediaComposition. -/
structure MediaComposition where
  dissolved_components : List DissolvedComponent
  dissolved_gases : List DissolvedGas
deriving DecidableEq

/-- Mirrors bioforge_schemas::environment::MediaState. -/
structure MediaState where
  volume : Measurement
  ph : ℚ
  composition : MediaComposition
deriving DecidableEq

/-- Mirrors bioforge_schemas::organism::ToleranceRange of f64. -/
structure ToleranceRange where
  min : ℚ
  max : ℚ
deriving DecidableEq

/-- Mirrors bioforge_schemas::organism::TemperatureTolerance. -/
structure TemperatureTolerance where
  optimal : Measurement
  range : ToleranceRange
deriving DecidableEq

/-- Mirrors bioforge_schemas::organism::EnvironmentalTolerances, keeping
the temperature field, the only one the engine reads. -/
structure EnvironmentalTolerances where
  temperature : TemperatureTolerance
deriving DecidableEq

/-- Mirrors bioforge_schemas::organism::MediaExchangeRate, keeping the
fields the engine reads (molecule_id, molecule_name, max_exchange_rate). -/
structure MediaExchangeRate where
  molecule_id : String
  molecule_name : String
  max_exchange_rate : Measurement
deriving DecidableEq

/-- Mirrors bioforge_schemas::organism::MetabolicExchange, keeping the
media exchange lists, the only ones the engine reads. -/
structure MetabolicExchange where
  media_consumption : List MediaExchangeRate
  media_secretion : List MediaExchangeRate
deriving DecidableEq

/-- Mirrors bioforge_schemas::organism::DynamicParameters (engine-read fields). -/
structure DynamicParameters where
  growth_rate_per_hr : ℚ
  environmental_tolerances : EnvironmentalTolerances
  metabolic_exchange : MetabolicExchange
deriving DecidableEq

/-- Mirrors bioforge_schemas::organism::TargetMoleculeYield. -/
structure TargetMoleculeYield where
  molecule : String
  concentration_mg_g_dw : ℚ
deriving DecidableEq

/-- Mirrors bioforge_schemas::organism::TargetedMolecularClasses. -/
structure TargetedMolecularClasses where
  terpenoids_and_carotenoids : List TargetMoleculeYield
  cell_wall_components : List TargetMoleculeYield
deriving DecidableEq

/-- Mirrors bioforge_schemas::organism::StaticProperties, keeping the
yield table, the only field the engine reads. -/
structure StaticProperties where
  targeted_molecular_classes : TargetedMolecularClasses
deriving DecidableEq

/-- Mirrors bioforge_schemas::organism::Organism (engine-read fields). -/
structure Organism where
  static_properties : StaticProperties
  dynamic_parameters : DynamicParameters
deriving DecidableEq

/-- Mirrors bioforge_schemas::organism_state::IndividualOrganismState. -/
structure IndividualOrganismState where
  biomass : Measurement
deriving DecidableEq

/-- Mirrors bioforge_schemas::organism_state::OrganismState; the HashMap
of states is modelled as an association list. -/
structure OrganismState where
  states : List (String × IndividualOrganismState)
deriving DecidableEq

/-- Mirrors bioforge_schemas::process::Method, keeping the fields the
engine reads (method_id, technique, required_asset_id, required_rule_ids). -/
structure Method where
  method_id : String
  technique : String
  required_asset_id : String
  required_rule_ids : Option (List String)
deriving DecidableEq

/-- Mirrors bioforge_schemas::process::Process (engine-read fields). -/
structure Process where
  default_workflow : List String
  methods : List Method
deriving DecidableEq

/-- Mirrors bioforge_schemas::rule::ComparisonOperator. -/
inductive ComparisonOperator where
  | LessThan
  | GreaterThan
  | EqualTo
  | NotEqualTo
deriving DecidableEq

/-- Mirrors bioforge_schemas::rule::Condition. -/
inductive Condition where
  | AssetValue (asset_id : String) (parameter : String)
      (operator : ComparisonOperator) (value : ℚ)
  | TimeInStage (ticks : ℕ)
  | BiomassStationary (threshold : ℚ) (window : ℕ)
  | ProductAmount (molecule_name : String) (target_grams : ℚ)
  | MediaValue (molecule_id : String)
      (operator : ComparisonOperator) (value : ℚ)
deriving DecidableEq

/-- Mirrors bioforge_schemas::command::Command. -/
inductive Command where
  | SetTemperature (asset_id : String) (celsius : ℚ)
  | AdjustPh (asset_id : String) (target_ph : ℚ)
  | AdvanceToNextStep
  | AddMaterial (asset_id : String) (material_id : String) (amount_grams : ℚ)
  | SetOrganismGrowthMultiplier (organism_id : String) (multiplier : ℚ)
deriving DecidableEq

/-- Mirrors bioforge_schemas::rule::Rule. -/
structure Rule where
  name : String
  condition : Condition
  action : Command
deriving DecidableEq

/-- Mirrors bioforge_core simulation::state::SimulationEvent. -/
inductive SimulationEvent where
  | MaterialConsumed (id : String) (amount : ℚ)
  | MaterialAdded (id : String) (amount : ℚ)
deriving DecidableEq

/-- Mirrors bioforge_core simulation::state::LiveAsset; the immutable
Asset definition field is omitted because the engine never reads it. -/
structure LiveAsset where
  temperature : ℚ
  ph : ℚ
deriving DecidableEq

/-- Mirrors bioforge_core simulation::state::SimulationState; the assets
HashMap is modelled as an association list. -/
structure SimulationState where
  tick : ℕ
  ticks_in_current_stage : ℕ
  assets : List (String × LiveAsset)
  media : MediaState
  organisms : OrganismState
  events : List SimulationEvent
deriving DecidableEq

/-- Mirrors bioforge_core simulation::engine::SimulationEngine; the
rules, organism_defs and growth_multipliers HashMaps are association
lists, the biomass_history VecDeque is a list with the front (oldest
sample) first, and the optional logger is modelled by the flag
logger (true when a TimeSeriesLogger is attached). -/
structure SimulationEngine where
  state : SimulationState
  process : Process
  rules : List (String × Rule)
  organism_defs : List (String × Organism)
  current_step_index : ℕ
  logger : Bool
  biomass_history : List ℚ
  growth_multipliers : List (String × ℚ)
deriving DecidableEq

/-- Mirrors bioforge_core error::BioforgeError (the variants the engine
tick path can produce). -/
inductive BioforgeError where
  | MethodNotFound (id : String)
  | OrganismNotFound (id : String)
deriving DecidableEq

/-- Outcome of running a fallible engine operation: ok, a returned
BioforgeError, or a Rust panic. -/
inductive RunResult (α : Type) where
  | ok (a : α)
  | error (e : BioforgeError)
  | panicked
deriving DecidableEq

/-- A property holds of a successful run outcome (vacuous on error or panic). -/
def RunResult.holds {α : Type} (r : RunResult α) (p : α → Prop) : Prop :=
  match r with
  | .ok a => p a
  | .error _ => True
  | .panicked => True

/-- Association-list lookup: value of the first pair with the given key.
Models HashMap::get on the fixed iteration order. -/
def lookupA {α : Type} : List (String × α) → String → Option α
  | [], _ => none
  | p :: rest, k => if p.1 = k then some p.2 else lookupA rest k

/-- Replace the first element satisfying the test by its image under f,
leaving everything else unchanged. Models iter_mut().find() followed by
a mutation of the found element. -/
def updateFirst {α : Type} (p : α → Bool) (f : α → α) : List α → List α
  | [] => []
  | a :: rest => if p a then f a :: rest else a :: updateFirst p f rest

/-- Add d to the entry for key k, inserting the entry as (k, d) when the
key is absent. Models HashMap entry(k).or_insert(0.0) followed by an
in-place addition. -/
def addDelta : List (String × ℚ) → String → ℚ → List (String × ℚ)
  | [], k, d => [(k, d)]
  | p :: rest, k, d =>
      if p.1 = k then (p.1, p.2 + d) :: rest else p :: addDelta rest k d

/-- HashMap::insert on an association list: overwrite the first entry
with the key, or append a new entry. -/
def insertA {α : Type} : List (String × α) → String → α → List (String × α)
  | [], k, v => [(k, v)]
  | p :: rest, k, v =>
      if p.1 = k then (k, v) :: rest else p :: insertA rest k v

/-- Mirrors engine.rs lines 89 and 129: the method both the biological
tick and the unit-operation tick use, selected by LIST POSITION into
process.methods (none models the out-of-bounds panic). -/
def positionalMethod (e : SimulationEngine) : Option Method :=
  e.process.methods.get? e.current_step_index

/-- Mirrors engine.rs lines 59-64: lookup of a method by its method_id. -/
def methodById (e : SimulationEngine) (id : String) : Option Method :=
  e.process.methods.find? (fun m => m.method_id == id)

/-- Mirrors engine.rs lines 137-143: the temperature stress factor. -/
def stressFactor (bioreactor_temp : ℚ) (tol : TemperatureTolerance) : ℚ :=
  if bioreactor_temp < tol.range.min ∨ bioreactor_temp > tol.range.max then
    0.1
  else if bioreactor_temp ≤ tol.optimal.value then
    0.1 + 0.9 * (bioreactor_temp - tol.range.min) /
      (tol.optimal.value - tol.range.min)
  else
    1.0 - 0.9 * (bioreactor_temp - tol.optimal.value) /
      (tol.range.max - tol.optimal.value)

/-- Mirrors engine.rs lines 129-134: the temperature the organism sees,
read from the required asset of the positionally selected method, with
the organism optimum as the fallback when the asset is absent. -/
def bioreactorTempOf (e : SimulationEngine) (method : Method)
    (org_def : Organism) : ℚ :=
  match lookupA e.state.assets method.required_asset_id with
  | none => org_def.dynamic_parameters.environmental_tolerances.temperature.optimal.value
  | some a => a.temperature

/-- Mirrors engine.rs lines 145-151: Monod nutrient limitation with
Ks = 0.5 on the first-listed media-consumption molecule, located in the
media by molecule NAME. -/
def nutrientLimitation (e : SimulationEngine) (org_def : Organism) : ℚ :=
  let primary_carbon_source_name :=
    match org_def.dynamic_parameters.metabolic_exchange.media_consumption.head? with
    | none => ""
    | some c => c.molecule_name
  let nutrient_concentration :=
    match e.state.media.composition.dissolved_components.find?
        (fun c => c.molecule_name == primary_carbon_source_name) with
    | none => 0
    | some c => c.concentration.value
  nutrient_concentration / (0.5 + nutrient_concentration)

/-- Mirrors engine.rs lines 153-154: effective growth rate = base rate
times stress factor times nutrient limitation times growth multiplier. -/
def effectiveGrowthRate (e : SimulationEngine) (org_id : String)
    (org_def : Organism) (method : Method) : ℚ :=
  org_def.dynamic_parameters.growth_rate_per_hr *
    stressFactor (bioreactorTempOf e method org_def)
      org_def.dynamic_parameters.environmental_tolerances.temperature *
    nutrientLimitation e org_def *
    (match lookupA e.growth_multipliers org_id with
     | none => 1
     | some m => m)

/-- Mirrors engine.rs lines 155-156: biomass += biomass * (exp(rate * dt) - 1)
with dt = 1 hour, over the abstracted f64 exponential fexp. -/
def updatedBiomass (fexp : ℚ → ℚ) (biomass rate : ℚ) : ℚ :=
  biomass + biomass * (fexp (rate * 1) - 1)

/-- Mirrors one iteration of the consumption loop, engine.rs lines 160-181:
accumulates a negative concentration delta and a MaterialConsumed event. -/
def consumeStep (e : SimulationEngine) (gm biomass_new : ℚ)
    (acc : List (String × ℚ) × List SimulationEvent)
    (cdef : MediaExchangeRate) :
    List (String × ℚ) × List SimulationEvent :=
  match e.state.media.composition.dissolved_components.find?
      (fun c => c.molecule_id == cdef.molecule_id) with
  | none => acc
  | some nutrient =>
    if nutrient.concentration.value > 0 then
      let nutrient_mw : ℚ :=
        if cdef.molecule_id = "CHEBI:17234" then 180.16 else 342.3
      let consumption_rate_g_gdw_hr :=
        cdef.max_exchange_rate.value * nutrient_mw / 1000 * gm
      let max_consumption_g := consumption_rate_g_gdw_hr * biomass_new * 1
      let available_nutrient_g :=
        nutrient.concentration.value * e.state.media.volume.value
      let actual_consumption_g := min max_consumption_g available_nutrient_g
      if actual_consumption_g > 0 then
        (addDelta acc.1 cdef.molecule_id
            (-(actual_consumption_g / e.state.media.volume.value)),
         acc.2 ++ [SimulationEvent.MaterialConsumed cdef.molecule_id
            actual_consumption_g])
      else acc
    else acc

/-- Folds consumeStep over the consumption definitions in list order. -/
def consumeFold (e : SimulationEngine) (gm biomass_new : ℚ) :
    List MediaExchangeRate →
    List (String × ℚ) × List SimulationEvent →
    List (String × ℚ) × List SimulationEvent
  | [], acc => acc
  | cdef :: rest, acc =>
      consumeFold e gm biomass_new rest (consumeStep e gm biomass_new acc cdef)

/-- Mirrors one iteration of the secretion loop, engine.rs lines 183-202:
accumulates a positive concentration delta and, at most once per molecule,
a fresh zero-concentration byproduct component. -/
def secreteStep (e : SimulationEngine) (sf biomass_new : ℚ)
    (acc : List (String × ℚ) × List DissolvedComponent)
    (sdef : MediaExchangeRate) :
    List (String × ℚ) × List DissolvedComponent :=
  let byproduct_mw : ℚ :=
    if sdef.molecule_id = "CHEBI:30089" then 60.05 else 1
  let secretion_rate_g_gdw_hr := sdef.max_exchange_rate.value * byproduct_mw / 1000
  let secreted_amount_g := secretion_rate_g_gdw_hr * biomass_new * 1 * sf
  if secreted_amount_g > 0 then
    let deltas := addDelta acc.1 sdef.molecule_id
      (secreted_amount_g / e.state.media.volume.value)
    if (e.state.media.composition.dissolved_components.find?
          (fun c => c.molecule_id == sdef.molecule_id)).isNone
        && !(acc.2.any (fun b => b.molecule_id == sdef.molecule_id)) then
      (deltas, acc.2 ++ [{ molecule_id := sdef.molecule_id,
                           molecule_name := sdef.molecule_name,
                           concentration := { value := 0, unit := "g/L" } }])
    else (deltas, acc.2)
  else acc

/-- Folds secreteStep over the secretion definitions in list order. -/
def secreteFold (e : SimulationEngine) (sf biomass_new : ℚ) :
    List MediaExchangeRate →
    List (String × ℚ) × List DissolvedComponent →
    List (String × ℚ) × List DissolvedComponent
  | [], acc => acc
  | sdef :: rest, acc =>
      secreteFold e sf biomass_new rest (secreteStep e sf biomass_new acc sdef)

/-- Accumulator of the per-organism pass of execute_biological_tick. -/
structure BioAcc where
  orgs : List (String × IndividualOrganismState)
  events : List SimulationEvent
  media_deltas : List (String × ℚ)
  new_byproducts : List DissolvedComponent
  total_biomass : ℚ
deriving DecidableEq

/-- Mirrors one iteration of the organism loop of execute_biological_tick,
engine.rs lines 127-203. The organism definition lookup error precedes the
positional method indexing, as in the source. -/
def bioOrgStep (fexp : ℚ → ℚ) (e : SimulationEngine) (acc : BioAcc)
    (p : String × IndividualOrganismState) : RunResult BioAcc :=
  match lookupA e.organism_defs p.1 with
  | none => .error (.OrganismNotFound p.1)
  | some org_def =>
    match positionalMethod e with
    | none => .panicked
    | some method =>
      let sf := stressFactor (bioreactorTempOf e method org_def)
        org_def.dynamic_parameters.environmental_tolerances.temperature
      let gm := match lookupA e.growth_multipliers p.1 with
        | none => 1
        | some m => m
      let rate := effectiveGrowthRate e p.1 org_def method
      let biomass_new := updatedBiomass fexp p.2.biomass.value rate
      let c1 := consumeFold e gm biomass_new
        org_def.dynamic_parameters.metabolic_exchange.media_consumption
        (acc.media_deltas, acc.events)
      let c2 := secreteFold e sf biomass_new
        org_def.dynamic_parameters.metabolic_exchange.media_secretion
        (c1.1, acc.new_byproducts)
      .ok { orgs := acc.orgs ++ [(p.1, { biomass := { value := biomass_new,
                                                      unit := p.2.biomass.unit } })],
            events := c1.2,
            media_deltas := c2.1,
            new_byproducts := c2.2,
            total_biomass := acc.total_biomass + biomass_new }

/-- Folds bioOrgStep over the organism states, propagating errors and panics. -/
def bioFold (fexp : ℚ → ℚ) (e : SimulationEngine) :
    List (String × IndividualOrganismState) → BioAcc → RunResult BioAcc
  | [], acc => .ok acc
  | p :: rest, acc =>
    match bioOrgStep fexp e acc p with
    | .ok acc1 => bioFold fexp e rest acc1
    | .error err => .error err
    | .panicked => .panicked

/-- Applies one accumulated concentration delta to the first component
with the molecule id, flooring the result at 0 (engine.rs lines 212-216). -/
def applyDelta (cs : List DissolvedComponent) (molecule_id : String)
    (delta : ℚ) : List DissolvedComponent :=
  updateFirst (fun c => c.molecule_id == molecule_id)
    (fun c => { c with concentration :=
        { c.concentration with value := max (c.concentration.value + delta) 0 } })
    cs

/-- Applies all accumulated deltas in list order. -/
def applyDeltas (cs : List DissolvedComponent) :
    List (String × ℚ) → List DissolvedComponent
  | [] => cs
  | (k, d) :: rest => applyDeltas (applyDelta cs k d) rest

/-- Mirrors SimulationEngine::execute_biological_tick, engine.rs lines 121-219:
per-organism growth, consumption and secretion with accumulate-then-apply
media deltas, the 10-sample rolling biomass history, and byproduct insertion. -/
def execute_biological_tick (fexp : ℚ → ℚ) (e : SimulationEngine) :
    RunResult SimulationEngine :=
  match bioFold fexp e e.state.organisms.states
      { orgs := [], events := e.state.events, media_deltas := [],
        new_byproducts := [], total_biomass := 0 } with
  | .error err => .error err
  | .panicked => .panicked
  | .ok acc =>
    let history1 := e.biomass_history ++ [acc.total_biomass]
    let history2 := if history1.length > 10 then history1.tail else history1
    let comps1 := e.state.media.composition.dissolved_components ++ acc.new_byproducts
    let comps2 := applyDeltas comps1 acc.media_deltas
    .ok { e with
      state := { e.state with
        organisms := { states := acc.orgs },
        events := acc.events,
        media := { e.state.media with
          composition := { e.state.media.composition with
            dissolved_components := comps2 } } },
      biomass_history := history2 }

/-- Mirrors SimulationEngine::execute_unit_operation_tick, engine.rs
lines 88-119: saponification consumes NaOH at a fixed rate capped at the
available concentration; any other technique is a no-op. The positional
method indexing panic is modelled by the none outcome. -/
def execute_unit_operation_tick (e : SimulationEngine) :
    Option SimulationState :=
  match positionalMethod e with
  | none => none
  | some current_method =>
    if current_method.technique = "saponification" then
      match e.state.media.composition.dissolved_components.find?
          (fun c => c.molecule_id == "CHEBI:32145") with
      | none => some e.state
      | some naoh =>
        if naoh.concentration.value > 0 then
          let consumed_conc := min 0.5 naoh.concentration.value
          let comps := updateFirst (fun c => c.molecule_id == "CHEBI:32145")
            (fun c => { c with concentration :=
                { c.concentration with
                  value := c.concentration.value - consumed_conc } })
            e.state.media.composition.dissolved_components
          some { e.state with
            media := { e.state.media with
              composition := { e.state.media.composition with
                dissolved_components := comps } },
            events := e.state.events ++
              [SimulationEvent.MaterialConsumed "CONS-NAOH-1M-01"
                (consumed_conc * e.state.media.volume.value)] }
        else some e.state
    else some e.state

/-- The exact value of f64::EPSILON, the tolerance the condition
evaluator uses for EqualTo and NotEqualTo. -/
def f64_EPSILON : ℚ := 1 / 2 ^ 52

/-- Mirrors the free function find_yield, engine.rs lines 361-378. -/
def find_yield (organism : Organism) (molecule_name : String) : Option ℚ :=
  match organism.static_properties.targeted_molecular_classes.terpenoids_and_carotenoids.find?
      (fun m => m.molecule == molecule_name) with
  | some m => some m.concentration_mg_g_dw
  | none =>
    match organism.static_properties.targeted_molecular_classes.cell_wall_components.find?
        (fun m => m.molecule == molecule_name) with
    | some m => some m.concentration_mg_g_dw
    | none => none

/-- Mirrors SimulationEngine::evaluate_condition, engine.rs lines 261-334.
The Rust function only ever returns Ok, so the result is Option Bool with
none modelling the two possible panics of the BiomassStationary arm (an
unwrap of None; the window = 0 case underflows the usize window - 1,
yielding an out-of-range index and hence an unwrap panic). -/
def evaluateCondition (e : SimulationEngine) : Condition → Option Bool
  | .TimeInStage ticks =>
      some (decide (e.state.ticks_in_current_stage ≥ ticks))
  | .BiomassStationary threshold window =>
      if e.biomass_history.length < window then some false
      else
        match e.biomass_history.getLast? with
        | none => none
        | some latest_biomass =>
          if window = 0 then none
          else
            match e.biomass_history.reverse.get? (window - 1) with
            | none => none
            | some past_biomass =>
              if past_biomass = 0 then some false
              else
                some (decide ((latest_biomass - past_biomass) / past_biomass /
                  (window : ℚ) < threshold))
  | .ProductAmount molecule_name target_grams =>
      let produced_grams := e.state.organisms.states.foldl
        (fun s p =>
          match lookupA e.organism_defs p.1 with
          | none => s
          | some org_def =>
            match find_yield org_def molecule_name with
            | none => s
            | some yield_mg_g => s + p.2.biomass.value * yield_mg_g / 1000)
        0
      some (decide (produced_grams ≥ target_grams))
  | .MediaValue molecule_id operator value =>
      match e.state.media.composition.dissolved_components.find?
          (fun c => c.molecule_id == molecule_id) with
      | none => some false
      | some component =>
        let current_value := component.concentration.value
        some (match operator with
          | .LessThan => decide (current_value < value)
          | .GreaterThan => decide (current_value > value)
          | .EqualTo => decide (|current_value - value| < f64_EPSILON)
          | .NotEqualTo => decide (|current_value - value| ≥ f64_EPSILON))
  | .AssetValue asset_id parameter operator value =>
      match lookupA e.state.assets asset_id with
      | none => some false
      | some asset =>
        if parameter = "temperature" ∨ parameter = "ph" then
          let current_value :=
            if parameter = "temperature" then asset.temperature else asset.ph
          some (match operator with
            | .LessThan => decide (current_value < value)
            | .GreaterThan => decide (current_value > value)
            | .EqualTo => decide (|current_value - value| < f64_EPSILON)
            | .NotEqualTo => decide (|current_value - value| ≥ f64_EPSILON))
        else some false

/-- Mirrors SimulationEngine::execute_command, engine.rs lines 221-259.
The Rust function only ever returns Ok, so the result is the new engine. -/
def execute_command (e : SimulationEngine) : Command → SimulationEngine
  | .AdvanceToNextStep =>
      { e with current_step_index := e.current_step_index + 1,
               state := { e.state with ticks_in_current_stage := 0 } }
  | .SetTemperature asset_id celsius =>
      { e with state := { e.state with
          assets := updateFirst (fun p => p.1 == asset_id)
            (fun p => (p.1, { p.2 with temperature := celsius }))
            e.state.assets } }
  | .AdjustPh asset_id target_ph =>
      { e with state := { e.state with
          assets := updateFirst (fun p => p.1 == asset_id)
            (fun p => (p.1, { p.2 with ph := target_ph }))
            e.state.assets } }
  | .AddMaterial _ material_id amount_grams =>
      match e.state.media.composition.dissolved_components.find?
          (fun c => c.molecule_id == material_id) with
      | none => e
      | some _ =>
        let concentration_increase := amount_grams / e.state.media.volume.value
        { e with state := { e.state with
            media := { e.state.media with
              composition := { e.state.media.composition with
                dissolved_components :=
                  updateFirst (fun c => c.molecule_id == material_id)
                    (fun c => { c with concentration :=
                        { c.concentration with
                          value := c.concentration.value + concentration_increase } })
                    e.state.media.composition.dissolved_components } },
            events := e.state.events ++
              [SimulationEvent.MaterialAdded material_id amount_grams] } }
  | .SetOrganismGrowthMultiplier organism_id multiplier =>
      { e with growth_multipliers :=
          insertA e.growth_multipliers organism_id multiplier }

/-- Evaluates the rules of the active method in order, queueing the action
of every rule whose condition is true; an unknown rule id is skipped
(engine.rs lines 66-75). -/
def ruleFold (e : SimulationEngine) :
    List String → List Command → RunResult (List Command)
  | [], q => .ok q
  | rule_id :: rest, q =>
    match lookupA e.rules rule_id with
    | none => ruleFold e rest q
    | some rule =>
      match evaluateCondition e rule.condition with
      | none => .panicked
      | some true => ruleFold e rest (q ++ [rule.action])
      | some false => ruleFold e rest q

/-- Mirrors engine.rs lines 58-75: resolve the active method id from the
workflow (a direct index, so none is a panic), find the method by id
(MethodNotFound on failure), and build the command queue from its rules.
Returns the active method id together with the queue. -/
def triggeredCommands (e : SimulationEngine) :
    RunResult (String × List Command) :=
  match e.process.default_workflow.get? e.current_step_index with
  | none => .panicked
  | some current_method_id =>
    match methodById e current_method_id with
    | none => .error (.MethodNotFound current_method_id)
    | some current_method =>
      match ruleFold e (current_method.required_rule_ids.getD []) [] with
      | .ok q => .ok (current_method_id, q)
      | .error err => .error err
      | .panicked => .panicked

/-- Mirrors engine.rs lines 51-53: clear the event list and advance the
tick counters, before any kinetics run. -/
def preKinetics (e : SimulationEngine) : SimulationEngine :=
  { e with state := { e.state with
      events := [],
      tick := e.state.tick + 1,
      ticks_in_current_stage := e.state.ticks_in_current_stage + 1 } }

/-- The engine after the counter bump, the biological tick and the
unit-operation tick of one tick, before rule evaluation, logging and
command execution (engine.rs lines 51-56). -/
def midTick (fexp : ℚ → ℚ) (e : SimulationEngine) :
    RunResult SimulationEngine :=
  match execute_biological_tick fexp (preKinetics e) with
  | .error err => .error err
  | .panicked => .panicked
  | .ok e2 =>
    match execute_unit_operation_tick e2 with
    | none => .panicked
    | some s3 => .ok { e2 with state := s3 }

/-- The per-tick log record, mirroring logger.rs LogEntry with the
serialized JSON string fields replaced by the structured data they
serialize. -/
structure LogEntry where
  tick : ℕ
  stage_id : String
  organisms : List (String × IndividualOrganismState)
  media_volume_l : ℚ
  media_ph : ℚ
  dissolved_components : List DissolvedComponent
  dissolved_gases : List DissolvedGas
  asset_states : List (String × ℚ × ℚ)
  events : List SimulationEvent
deriving DecidableEq

/-- Mirrors TimeSeriesLogger::log_state, logger.rs lines 30-64: the
snapshot of the given state written as one log record. -/
def mkLogEntry (s : SimulationState) (stage_id : String) : LogEntry :=
  { tick := s.tick,
    stage_id := stage_id,
    organisms := s.organisms.states,
    media_volume_l := s.media.volume.value,
    media_ph := s.media.ph,
    dissolved_components := s.media.composition.dissolved_components,
    dissolved_gases := s.media.composition.dissolved_gases,
    asset_states := s.assets.map (fun p => (p.1, p.2.temperature, p.2.ph)),
    events := s.events }

/-- Mirrors SimulationEngine::tick, engine.rs lines 46-86. The returned
triple is the engine after the tick, the record passed to the logger
(none when no logger is attached), and the continuation flag the Rust
function returns. -/
def tick (fexp : ℚ → ℚ) (e : SimulationEngine) :
    RunResult (SimulationEngine × Option LogEntry × Bool) :=
  if e.process.default_workflow.length ≤ e.current_step_index then
    .ok (e, none, false)
  else
    match midTick fexp e with
    | .error err => .error err
    | .panicked => .panicked
    | .ok m =>
      match triggeredCommands m with
      | .error err => .error err
      | .panicked => .panicked
      | .ok sq =>
        let log := if m.logger then some (mkLogEntry m.state sq.1) else none
        .ok (sq.2.foldl execute_command m, log, true)

/-- Runs tick n times from the given engine, keeping only the engine. -/
def tickN (fexp : ℚ → ℚ) : ℕ → SimulationEngine → RunResult SimulationEngine
  | 0, e => .ok e
  | n + 1, e =>
    match tick fexp e with
    | .ok r => tickN fexp n r.1
    | .error err => .error err
    | .panicked => .panicked

/-- The dissolved components of the media composition of an engine. -/
def dissolvedComponentsOf (e : SimulationEngine) : List DissolvedComponent :=
  e.state.media.composition.dissolved_components

/-- The molecule ids of a component list, in order. -/
def compIds (cs : List DissolvedComponent) : List String :=
  cs.map (fun c => c.molecule_id)

/-- The media composition holds no two entries with the same molecule id. -/
def NoDupComponentIds (e : SimulationEngine) : Prop :=
  (compIds (dissolvedComponentsOf e)).Nodup

/-- The pending byproduct list has pairwise distinct molecule ids, none of
which occurs in the given component list. -/
def FreshByproducts (cs bs : List DissolvedComponent) : Prop :=
  (compIds bs).Nodup ∧
  ∀ b ∈ bs, cs.find? (fun c => c.molecule_id == b.molecule_id) = none

/-- The per-organism state transformation execute_biological_tick applies,
as a function of the pre-tick engine: the biomass update of engine.rs
lines 154-156. When the organism definition or the positional method is
missing the pass aborts instead, so the junk value p is never observed
on a successful run. -/
def orgUpdate (fexp : ℚ → ℚ) (e : SimulationEngine)
    (p : String × IndividualOrganismState) : String × IndividualOrganismState :=
  match lookupA e.organism_defs p.1, positionalMethod e with
  | some org_def, some method =>
      let b := updatedBiomass fexp p.2.biomass.value
        (effectiveGrowthRate e p.1 org_def method)
      (p.1, { biomass := { value := b, unit := p.2.biomass.unit } })
  | _, _ => p

/-- Every rule attached to the currently active method (resolved by id as
in engine.rs lines 58-75) that exists in the rule set has an action other
than AdvanceToNextStep. -/
def noAdvanceRulesAtStage (e : SimulationEngine) : Bool :=
  match e.process.default_workflow.get? e.current_step_index with
  | none => true
  | some current_method_id =>
    match methodById e current_method_id with
    | none => true
    | some m =>
      (m.required_rule_ids.getD []).all (fun rule_id =>
        match lookupA e.rules rule_id with
        | none => true
        | some r => decide (r.action ≠ Command.AdvanceToNextStep))

/-- Modelled from the amended claim wording for C4: the comparison the
evaluator performs on a present quantity, with EqualTo and NotEqualTo
tolerant up to f64::EPSILON rather than exact. Stated separately from
evaluateCondition so the theorem compares the two. -/
def claimedComparison (operator : ComparisonOperator) (current target : ℚ) : Bool :=
  match operator with
  | .LessThan => decide (current < target)
  | .GreaterThan => decide (current > target)
  | .EqualTo => decide (|current - target| < f64_EPSILON)
  | .NotEqualTo => decide (|current - target| ≥ f64_EPSILON)

/-- A glucose media component at 10 g/L, used by the concrete test engines. -/
def glucose : DissolvedComponent :=
  { molecule_id := "CHEBI:17234", molecule_name := "glucose",
    concentration := { value := 10, unit := "g/L" } }

/-- A 1 L media containing only glucose. -/
def baseMedia : MediaState :=
  { volume := { value := 1, unit := "L" }, ph := 7,
    composition := { dissolved_components := [glucose], dissolved_gases := [] } }

/-- A temperature tolerance of 20-30 with optimum 25. -/
def tolT : TemperatureTolerance :=
  { optimal := { value := 25, unit := "C" }, range := { min := 20, max := 30 } }

/-- An inert organism definition: zero growth rate, no metabolic exchange. -/
def orgDef1 : Organism :=
  { static_properties :=
      { targeted_molecular_classes :=
          { terpenoids_and_carotenoids := [], cell_wall_components := [] } },
    dynamic_parameters :=
      { growth_rate_per_hr := 0,
        environmental_tolerances := { temperature := tolT },
        metabolic_exchange := { media_consumption := [], media_secretion := [] } } }

/-- An acetate secretion entry at unit exchange rate. -/
def secAcetate : MediaExchangeRate :=
  { molecule_id := "CHEBI:30089", molecule_name := "acetate",
    max_exchange_rate := { value := 1, unit := "mmol/gDW/hr" } }

/-- An organism definition that only secretes acetate (CHEBI:30089),
a molecule absent from baseMedia. -/
def orgDefSecreting : Organism :=
  { static_properties := orgDef1.static_properties,
    dynamic_parameters :=
      { growth_rate_per_hr := 0,
        environmental_tolerances := { temperature := tolT },
        metabolic_exchange :=
          { media_consumption := [], media_secretion := [secAcetate] } } }

/-- A 1 g organism state. -/
def orgSt1 : IndividualOrganismState := { biomass := { value := 1, unit := "g" } }

/-- Stage one method, attached to rule r1. -/
def method1 : Method :=
  { method_id := "m1", technique := "none", required_asset_id := "a1",
    required_rule_ids := some ["r1"] }

/-- Stage two method, no rules. -/
def method2 : Method :=
  { method_id := "m2", technique := "none", required_asset_id := "a1",
    required_rule_ids := none }

/-- A two-stage process whose methods list matches the workflow order. -/
def proc2 : Process := { default_workflow := ["m1", "m2"], methods := [method1, method2] }

/-- A rule that fires from the first tick of a stage and only adjusts a
set-point; it never advances the workflow. -/
def rule1 : Rule :=
  { name := "r1", condition := .TimeInStage 1,
    action := .SetTemperature "a1" 25 }

/-- The initial concrete simulation state of the test engines. -/
def baseState : SimulationState :=
  { tick := 0, ticks_in_current_stage := 0,
    assets := [("a1", { temperature := 25, ph := 7 })],
    media := baseMedia,
    organisms := { states := [("o1", orgSt1)] },
    events := [] }

/-- The concrete test engine: one inert organism, the two-stage process,
one non-advancing rule, a logger attached. -/
def baseEngine : SimulationEngine :=
  { state := baseState, process := proc2,
    rules := [("r1", rule1)], organism_defs := [("o1", orgDef1)],
    current_step_index := 0, logger := true,
    biomass_history := [], growth_multipliers := [("o1", 1)] }

/-- A trivial stand-in for the f64 exponential, used by the concrete
witnesses: constantly 1, which is non-negative everywhere and at least 1
on non-negative arguments. -/
def fexp1 : ℚ → ℚ := fun _ => 1

/-- The value of midTick fexp1 baseEngine, written out: counters bumped,
events cleared, the total biomass 1 pushed onto the history. -/
def baseMidEngine : SimulationEngine :=
  { baseEngine with
    state := { baseState with tick := 1, ticks_in_current_stage := 1 },
    biomass_history := [1] }

/-- The test engine whose biomass history is five equal nonzero samples. -/
def flatHistoryEngine : SimulationEngine :=
  { baseEngine with biomass_history := [2, 2, 2, 2, 2] }

/-- The test engine whose biomass history is five zero samples. -/
def zeroHistoryEngine : SimulationEngine :=
  { baseEngine with biomass_history := [0, 0, 0, 0, 0] }

/-- The test engine whose organism secretes a byproduct absent from the media. -/
def secretingEngine : SimulationEngine :=
  { baseEngine with organism_defs := [("o1", orgDefSecreting)] }

/-- A test engine whose methods list (one entry) is shorter than its
workflow (two entries) while the current index is 1: positional method
indexing is out of bounds. -/
def shortMethodsEngine : SimulationEngine :=
  { baseEngine with
    process := { default_workflow := ["m1", "m2"], methods := [method1] },
    current_step_index := 1 }

/-- A test engine whose methods list order is swapped relative to the
workflow: position 0 holds method2 while the workflow stage 0 is m1. -/
def swappedMethodsEngine : SimulationEngine :=
  { baseEngine with
    process := { default_workflow := ["m1", "m2"], methods := [method2, method1] } }

/-! ### General lemmas about the list helpers -/

theorem updateFirst_map {α β : Type} (p : α → Bool) (f : α → α)
    (g : α → β) (hf : ∀ a, g (f a) = g a) (l : List α) :
    (updateFirst p f l).map g = l.map g := by
  induction l with
  | nil => rfl
  | cons a rest ih =>
    unfold updateFirst
    cases hpa : p a <;> simp [hpa, hf, ih]

theorem updateFirst_length {α : Type} (p : α → Bool) (f : α → α) (l : List α) :
    (updateFirst p f l).length = l.length := by
  induction l with
  | nil => rfl
  | cons a rest ih =>
    unfold updateFirst
    cases hpa : p a <;> simp [hpa, ih]

theorem updateFirst_find? {α : Type} (p : α → Bool) (f : α → α)
    (hpf : ∀ a, p (f a) = p a) (l : List α) (c : α)
    (h : l.find? p = some c) :
    (updateFirst p f l).find? p = some (f c) := by
  induction l with
  | nil => simp [List.find?] at h
  | cons a rest ih =>
    unfold updateFirst
    cases hpa : p a with
    | true =>
      rw [List.find?_cons_of_pos _ hpa] at h
      injection h with h
      subst h
      simp only [if_pos rfl, hpa, if_true]
      exact List.find?_cons_of_pos _ (by rw [hpf, hpa])
    | false =>
      rw [List.find?_cons_of_neg _ (by simp [hpa])] at h
      simp only [hpa, if_false, Bool.false_eq_true]
      rw [List.find?_cons_of_neg _ (by simp [hpa])]
      exact ih h

theorem updateFirst_get?_of_neg {α : Type} (p : α → Bool) (f : α → α)
    (l : List α) (j : ℕ) (a : α) (h : l.get? j = some a) (ha : p a = false) :
    (updateFirst p f l).get? j = some a := by
  induction l generalizing j with
  | nil => simp at h
  | cons b rest ih =>
    unfold updateFirst
    cases hpb : p b with
    | true =>
      rw [if_pos rfl]
      cases j with
      | zero =>
        rw [List.get?_cons_zero] at h
        injection h with h
        subst h
        rw [hpb] at ha
        cases ha
      | succ k =>
        rw [List.get?_cons_succ] at h
        rw [List.get?_cons_succ]
        exact h
    | false =>
      rw [if_neg Bool.false_ne_true]
      cases j with
      | zero =>
        rw [List.get?_cons_zero] at h
        rw [List.get?_cons_zero]
        exact h
      | succ k =>
        rw [List.get?_cons_succ] at h
        rw [List.get?_cons_succ]
        exact ih k h

theorem compIds_applyDelta (cs : List DissolvedComponent) (k : String) (d : ℚ) :
    compIds (applyDelta cs k d) = compIds cs := by
  unfold compIds applyDelta
  apply updateFirst_map
  intro a
  rfl

theorem compIds_applyDeltas (ds : List (String × ℚ)) (cs : List DissolvedComponent) :
    compIds (applyDeltas cs ds) = compIds cs := by
  induction ds generalizing cs with
  | nil => rfl
  | cons kd rest ih =>
    cases kd with
    | mk k d =>
      unfold applyDeltas
      rw [ih, compIds_applyDelta]

/-! ### Claim theorems: stress factor (C7) -/

/-- C7: the temperature stress factor is the hard floor 0.1 outside the
tolerance range, the linear ramp from 0.1 at the minimum to 1.0 at the
optimum for temperatures at or below the optimum, and the linear ramp
from 1.0 at the optimum down to 0.1 at the maximum above the optimum. -/
theorem C7_temperature_stress_factor (t mn opt mx : ℚ) (u : String)
    (hmo : mn < opt) (hom : opt < mx) :
    ((t < mn ∨ t > mx) → stressFactor t ⟨⟨opt, u⟩, ⟨mn, mx⟩⟩ = 0.1) ∧
    (mn ≤ t → t ≤ opt →
      stressFactor t ⟨⟨opt, u⟩, ⟨mn, mx⟩⟩ = 0.1 + 0.9 * (t - mn) / (opt - mn)) ∧
    (opt < t → t ≤ mx →
      stressFactor t ⟨⟨opt, u⟩, ⟨mn, mx⟩⟩ = 1 - 0.9 * (t - opt) / (mx - opt)) := by
  refine ⟨fun h => ?_, fun h1 h2 => ?_, fun h1 h2 => ?_⟩
  · unfold stressFactor
    rw [if_pos h]
  · unfold stressFactor
    rw [if_neg ?_, if_pos h2]
    rintro (h | h)
    · exact absurd h (not_lt.mpr h1)
    · exact absurd h (not_lt.mpr (h2.trans hom.le))
  · unfold stressFactor
    rw [if_neg ?_, if_neg (not_le.mpr h1)]
    · norm_num
    · rintro (h | h)
      · exact absurd h (not_lt.mpr (hmo.trans h1).le)
      · exact absurd h (not_lt.mpr h2)

/-! ### Claim theorems: event clearing (C3) -/

/-- C3: on every non-terminal tick the event list is cleared before the
kinetics run, so the whole outcome of the tick (the resulting engine, the
logged record and the continuation flag) is independent of whatever
events were left in the state by the previous tick. -/
theorem C3_events_cleared_each_tick (fexp : ℚ → ℚ) (e : SimulationEngine)
    (E1 E2 : List SimulationEvent)
    (h : e.current_step_index < e.process.default_workflow.length) :
    tick fexp { e with state := { e.state with events := E1 } } =
    tick fexp { e with state := { e.state with events := E2 } } := by
  have hmid : midTick fexp { e with state := { e.state with events := E1 } } =
      midTick fexp { e with state := { e.state with events := E2 } } := rfl
  unfold tick
  rw [if_neg (not_le.mpr h), if_neg (not_le.mpr h), hmid]

/-! ### Claim theorems: commands run after logging (C1) -/

/-- C1: on a non-terminal tick whose kinetics phase yields the engine m
and whose rule evaluation on m yields the queue q, the record handed to
the logger is the snapshot of m (the post-kinetics, pre-command state, the
same state the conditions were evaluated against), and the commands of q
are folded into the state only afterwards, so their effects are visible
only from the next tick on. -/
theorem C1_commands_after_logging (fexp : ℚ → ℚ) (e m : SimulationEngine)
    (sid : String) (q : List Command)
    (h : e.current_step_index < e.process.default_workflow.length)
    (hm : midTick fexp e = .ok m)
    (ht : triggeredCommands m = .ok (sid, q)) :
    tick fexp e = .ok (q.foldl execute_command m,
      (if m.logger then some (mkLogEntry m.state sid) else none), true) := by
  unfold tick
  rw [if_neg (not_le.mpr h)]
  split
  · rename_i heq
    rw [hm] at heq
    cases heq
  · rename_i heq
    rw [hm] at heq
    cases heq
  · rename_i m1 heq
    rw [hm] at heq
    injection heq with heq
    subst heq
    split
    · rename_i heq2
      rw [ht] at heq2
      cases heq2
    · rename_i heq2
      rw [ht] at heq2
      cases heq2
    · rename_i sq heq2
      rw [ht] at heq2
      injection heq2 with heq2
      subst heq2
      rfl

/-! ### Lemmas about the engine phases -/

theorem positionalMethod_eq_of (e1 e : SimulationEngine)
    (hp : e1.process = e.process) (hi : e1.current_step_index = e.current_step_index) :
    positionalMethod e1 = positionalMethod e := by
  unfold positionalMethod
  rw [hp, hi]

theorem bioOrgStep_panicked (fexp : ℚ → ℚ) (e : SimulationEngine) (acc : BioAcc)
    (p : String × IndividualOrganismState) (od : Organism)
    (hd : lookupA e.organism_defs p.1 = some od)
    (hm : positionalMethod e = none) :
    bioOrgStep fexp e acc p = .panicked := by
  unfold bioOrgStep
  rw [hd, hm]

theorem execute_biological_tick_ok_fields (fexp : ℚ → ℚ) (e e1 : SimulationEngine)
    (h : execute_biological_tick fexp e = .ok e1) :
    e1.process = e.process ∧ e1.rules = e.rules ∧
    e1.organism_defs = e.organism_defs ∧
    e1.current_step_index = e.current_step_index ∧ e1.logger = e.logger ∧
    e1.growth_multipliers = e.growth_multipliers ∧
    e1.state.assets = e.state.assets := by
  unfold execute_biological_tick at h
  split at h
  · cases h
  · cases h
  · injection h with h
    subst h
    exact ⟨rfl, rfl, rfl, rfl, rfl, rfl, rfl⟩

theorem execute_biological_tick_nil (fexp : ℚ → ℚ) (e : SimulationEngine)
    (hs : e.state.organisms.states = []) :
    ∃ e1, execute_biological_tick fexp e = .ok e1 ∧
      e1.process = e.process ∧ e1.current_step_index = e.current_step_index := by
  unfold execute_biological_tick
  rw [hs]
  exact ⟨_, rfl, rfl, rfl⟩

theorem execute_biological_tick_panicked_head (fexp : ℚ → ℚ)
    (e : SimulationEngine) (p : String × IndividualOrganismState)
    (rest : List (String × IndividualOrganismState)) (od : Organism)
    (hs : e.state.organisms.states = p :: rest)
    (hd : lookupA e.organism_defs p.1 = some od)
    (hm : positionalMethod e = none) :
    execute_biological_tick fexp e = .panicked := by
  have hstep : bioOrgStep fexp e
      { orgs := [], events := e.state.events, media_deltas := [],
        new_byproducts := [], total_biomass := 0 } p = .panicked :=
    bioOrgStep_panicked fexp e _ p od hd hm
  unfold execute_biological_tick
  rw [hs]
  simp only [bioFold, hstep]

theorem execute_unit_operation_tick_no_method (e : SimulationEngine)
    (hm : positionalMethod e = none) :
    execute_unit_operation_tick e = none := by
  unfold execute_unit_operation_tick
  rw [hm]

theorem midTick_panicked_of_no_method (fexp : ℚ → ℚ) (e : SimulationEngine)
    (hm : positionalMethod e = none)
    (hdefs : ∀ p ∈ e.state.organisms.states, (lookupA e.organism_defs p.1).isSome) :
    midTick fexp e = .panicked := by
  have hm1 : positionalMethod (preKinetics e) = none := hm
  cases hs : e.state.organisms.states with
  | nil =>
    obtain ⟨e1, hbio, hp, hi⟩ := execute_biological_tick_nil fexp (preKinetics e) hs
    have hu : execute_unit_operation_tick e1 = none :=
      execute_unit_operation_tick_no_method e1
        (by rw [positionalMethod_eq_of e1 (preKinetics e) hp hi]; exact hm1)
    unfold midTick
    simp only [hbio]
    rw [hu]
  | cons p rest =>
    have hp : p ∈ e.state.organisms.states := by
      rw [hs]
      exact List.mem_cons_self p rest
    obtain ⟨od, hod⟩ := Option.isSome_iff_exists.mp (hdefs p hp)
    have hbio : execute_biological_tick fexp (preKinetics e) = .panicked :=
      execute_biological_tick_panicked_head fexp (preKinetics e) p rest od hs hod hm1
    unfold midTick
    simp only [hbio]

/-! ### Claim theorems: positional method selection (C10) -/

/-- C10: with a valid workflow index, both kinetics steps select the
method by list position into process.methods rather than by the workflow
id: when the methods list is shorter than the index the tick panics
(instead of returning a BioforgeError), and when the positional method id
differs from the active workflow id, the method the kinetics use is not
the method the id lookup yields. -/
theorem C10_positional_method_selection (fexp : ℚ → ℚ) (e : SimulationEngine)
    (h1 : e.current_step_index < e.process.default_workflow.length) :
    ((∀ p ∈ e.state.organisms.states, (lookupA e.organism_defs p.1).isSome) →
      e.process.methods.length ≤ e.current_step_index →
      tick fexp e = .panicked) ∧
    (∀ m wid, e.process.methods.get? e.current_step_index = some m →
      e.process.default_workflow.get? e.current_step_index = some wid →
      positionalMethod e = some m ∧
      (m.method_id ≠ wid → ∀ m2, methodById e wid = some m2 → m2 ≠ m)) := by
  constructor
  · intro hdefs hlen
    have hm : positionalMethod e = none := by
      unfold positionalMethod
      exact List.get?_eq_none.mpr hlen
    have hmid : midTick fexp e = .panicked :=
      midTick_panicked_of_no_method fexp e hm hdefs
    unfold tick
    rw [if_neg (not_le.mpr h1), hmid]
  · intro m wid hm hw
    refine ⟨hm, fun hne m2 hm2 => ?_⟩
    have hid : m2.method_id = wid := by
      have := List.find?_some hm2
      simpa using this
    intro heq
    subst heq
    exact hne hid

/-! ### Claim theorems: AddMaterial (C9) -/

/-- C9: an executed AddMaterial command on a molecule id present in the
media composition increases exactly that component's concentration by
amount_grams / media.volume (all other components, the assets, the
organisms, the volume and the stage index are untouched) and appends a
MaterialAdded event; on an absent molecule id the whole engine is
returned unchanged (no insertion, no event). -/
theorem C9_add_material_semantics (e : SimulationEngine) (aid mid : String) (g : ℚ) :
    ((dissolvedComponentsOf e).find? (fun c => c.molecule_id == mid) = none →
      execute_command e (.AddMaterial aid mid g) = e) ∧
    (∀ c, (dissolvedComponentsOf e).find? (fun c => c.molecule_id == mid) = some c →
      (dissolvedComponentsOf (execute_command e (.AddMaterial aid mid g))).find?
          (fun x => x.molecule_id == mid) =
        some { c with concentration := { c.concentration with
          value := c.concentration.value + g / e.state.media.volume.value } } ∧
      (dissolvedComponentsOf (execute_command e (.AddMaterial aid mid g))).length =
        (dissolvedComponentsOf e).length ∧
      (∀ j x, (dissolvedComponentsOf e).get? j = some x → x.molecule_id ≠ mid →
        (dissolvedComponentsOf (execute_command e (.AddMaterial aid mid g))).get? j =
          some x) ∧
      (execute_command e (.AddMaterial aid mid g)).state.events =
        e.state.events ++ [SimulationEvent.MaterialAdded mid g] ∧
      (execute_command e (.AddMaterial aid mid g)).state.assets = e.state.assets ∧
      (execute_command e (.AddMaterial aid mid g)).state.organisms =
        e.state.organisms ∧
      (execute_command e (.AddMaterial aid mid g)).state.media.volume =
        e.state.media.volume ∧
      (execute_command e (.AddMaterial aid mid g)).current_step_index =
        e.current_step_index) := by
  constructor
  · intro h
    simp only [execute_command]
    rw [show List.find? (fun c => c.molecule_id == mid)
        e.state.media.composition.dissolved_components = none from h]
  · intro c hc
    have hc' : List.find? (fun c => c.molecule_id == mid)
        e.state.media.composition.dissolved_components = some c := hc
    have hcomps : dissolvedComponentsOf (execute_command e (.AddMaterial aid mid g)) =
        updateFirst (fun x => x.molecule_id == mid)
          (fun x => { x with concentration := { x.concentration with
              value := x.concentration.value + g / e.state.media.volume.value } })
          (dissolvedComponentsOf e) := by
      unfold dissolvedComponentsOf
      simp only [execute_command]
      rw [hc']
    have hev : (execute_command e (.AddMaterial aid mid g)).state.events =
        e.state.events ++ [SimulationEvent.MaterialAdded mid g] := by
      simp only [execute_command]
      rw [hc']
    have hassets : (execute_command e (.AddMaterial aid mid g)).state.assets =
        e.state.assets := by
      simp only [execute_command]
      rw [hc']
    have horgs : (execute_command e (.AddMaterial aid mid g)).state.organisms =
        e.state.organisms := by
      simp only [execute_command]
      rw [hc']
    have hvol : (execute_command e (.AddMaterial aid mid g)).state.media.volume =
        e.state.media.volume := by
      simp only [execute_command]
      rw [hc']
    have hidx : (execute_command e (.AddMaterial aid mid g)).current_step_index =
        e.current_step_index := by
      simp only [execute_command]
      rw [hc']
    refine ⟨?_, ?_, ?_, hev, hassets, horgs, hvol, hidx⟩
    · rw [hcomps]
      exact updateFirst_find? (fun x => x.molecule_id == mid)
        (fun x => { x with concentration := { x.concentration with
            value := x.concentration.value + g / e.state.media.volume.value } })
        (fun a => rfl) (dissolvedComponentsOf e) c hc
    · rw [hcomps]
      exact updateFirst_length _ _ _
    · intro j x hx hne
      rw [hcomps]
      exact updateFirst_get?_of_neg _ _ _ j x hx (beq_eq_false_iff_ne.mpr hne)

/-! ### Claim theorems: numeric condition comparisons (C4) -/

/-- C4 counterexample: the evaluator does NOT use exact equality for
EqualTo / inequality for NotEqualTo. In baseEngine the glucose component
has concentration exactly 10, yet EqualTo against the different target
10 + 2⁻⁵³ evaluates true (the difference is below f64::EPSILON = 2⁻⁵²)
and NotEqualTo against that different target evaluates false. -/
theorem C4_counterexample_epsilon_equality :
    (dissolvedComponentsOf baseEngine).find?
      (fun c => c.molecule_id == "CHEBI:17234") = some glucose ∧
    glucose.concentration.value ≠ 10 + 1 / 2 ^ 53 ∧
    evaluateCondition baseEngine
      (.MediaValue "CHEBI:17234" .EqualTo (10 + 1 / 2 ^ 53)) = some true ∧
    evaluateCondition baseEngine
      (.MediaValue "CHEBI:17234" .NotEqualTo (10 + 1 / 2 ^ 53)) = some false := by
  refine ⟨by with_unfolding_all decide, by with_unfolding_all decide,
    by with_unfolding_all decide, by with_unfolding_all decide⟩

/-- C4 amended: for MediaValue and AssetValue conditions the evaluator
performs a direct numeric comparison of the named quantity in which
LessThan and GreaterThan are strict comparisons, EqualTo is true exactly
when the absolute difference is below f64::EPSILON = 2⁻⁵², and NotEqualTo
is true exactly when the absolute difference is at least f64::EPSILON; an
absent molecule, asset or parameter evaluates to false. -/
theorem C4_amended_condition_comparison (e : SimulationEngine)
    (mid aid parameter : String) (operator : ComparisonOperator) (value : ℚ) :
    ((dissolvedComponentsOf e).find? (fun c => c.molecule_id == mid) = none →
      evaluateCondition e (.MediaValue mid operator value) = some false) ∧
    (∀ c, (dissolvedComponentsOf e).find? (fun c => c.molecule_id == mid) = some c →
      evaluateCondition e (.MediaValue mid operator value) =
        some (claimedComparison operator c.concentration.value value)) ∧
    (lookupA e.state.assets aid = none →
      evaluateCondition e (.AssetValue aid parameter operator value) = some false) ∧
    (∀ a, lookupA e.state.assets aid = some a →
      (parameter = "temperature" →
        evaluateCondition e (.AssetValue aid parameter operator value) =
          some (claimedComparison operator a.temperature value)) ∧
      (parameter = "ph" →
        evaluateCondition e (.AssetValue aid parameter operator value) =
          some (claimedComparison operator a.ph value)) ∧
      (parameter ≠ "temperature" → parameter ≠ "ph" →
        evaluateCondition e (.AssetValue aid parameter operator value) =
          some false)) := by
  refine ⟨fun h => ?_, fun c hc => ?_, fun h => ?_, fun a ha => ⟨fun hp => ?_, fun hp => ?_, fun hp1 hp2 => ?_⟩⟩
  · simp only [evaluateCondition]
    rw [show List.find? (fun c => c.molecule_id == mid)
        e.state.media.composition.dissolved_components = none from h]
  · simp only [evaluateCondition]
    rw [show List.find? (fun c => c.molecule_id == mid)
        e.state.media.composition.dissolved_components = some c from hc]
    cases operator <;> rfl
  · simp only [evaluateCondition]
    rw [h]
  · subst hp
    cases operator <;> simp [evaluateCondition, ha, claimedComparison]
  · subst hp
    cases operator <;> simp [evaluateCondition, ha, claimedComparison]
  · simp only [evaluateCondition, ha]
    rw [if_neg ?_]
    rintro (h | h)
    · exact hp1 h
    · exact hp2 h

/-! ### Claim theorems: BiomassStationary (C5) -/

/-- C5 counterexample: with exactly window = 5 samples all equal (all
zero) and the positive threshold 1/100, BiomassStationary evaluates
false, because the evaluator returns false whenever the sample
window samples ago is zero; the claim predicts true for any positive
threshold when all samples are equal. -/
theorem C5_counterexample_zero_flat_history :
    zeroHistoryEngine.biomass_history = List.replicate 5 (0 : ℚ) ∧
    (0 : ℚ) < 1 / 100 ∧
    evaluateCondition zeroHistoryEngine (.BiomassStationary (1 / 100) 5) =
      some false := by
  refine ⟨by with_unfolding_all decide, by with_unfolding_all decide,
    by with_unfolding_all decide⟩

/-- C5 amended: with fewer than window samples BiomassStationary is
false regardless of growth; with at least window samples it reads the
latest sample and the sample window samples ago, returns false when the
latter is zero, and otherwise is true exactly when
(latest - past) / past / window is below the threshold; in particular
with exactly window samples all equal to a NONZERO value it is true for
any positive threshold. -/
theorem C5_amended_biomass_stationary (e : SimulationEngine) (threshold : ℚ)
    (window : ℕ) (hw : 1 ≤ window) :
    (e.biomass_history.length < window →
      evaluateCondition e (.BiomassStationary threshold window) = some false) ∧
    (∀ latest past, e.biomass_history.getLast? = some latest →
      e.biomass_history.reverse.get? (window - 1) = some past →
      ¬ e.biomass_history.length < window →
      (past = 0 →
        evaluateCondition e (.BiomassStationary threshold window) = some false) ∧
      (past ≠ 0 →
        evaluateCondition e (.BiomassStationary threshold window) =
          some (decide ((latest - past) / past / (window : ℚ) < threshold)))) ∧
    (∀ b : ℚ, b ≠ 0 → 0 < threshold →
      e.biomass_history = List.replicate window b →
      evaluateCondition e (.BiomassStationary threshold window) = some true) := by
  have hw0 : ¬ window = 0 := by omega
  refine ⟨fun h => ?_, fun latest past hl hp hnl => ⟨fun h0 => ?_, fun hne => ?_⟩,
    fun b hb ht hrep => ?_⟩
  · simp only [evaluateCondition]
    rw [if_pos h]
  · simp only [evaluateCondition]
    rw [if_neg hnl]
    simp only [hl]
    rw [if_neg hw0]
    simp only [hp]
    rw [if_pos h0]
  · simp only [evaluateCondition]
    rw [if_neg hnl]
    simp only [hl]
    rw [if_neg hw0]
    simp only [hp]
    rw [if_neg hne]
  · have hlen : e.biomass_history.length = window := by
      rw [hrep, List.length_replicate]
    have hnl : ¬ e.biomass_history.length < window := by omega
    have hl : e.biomass_history.getLast? = some b := by
      rw [hrep, List.getLast?_replicate]
      exact if_neg hw0
    have hp : e.biomass_history.reverse.get? (window - 1) = some b := by
      rw [hrep, List.reverse_replicate, List.get?_eq_getElem?,
        List.getElem?_replicate]
      exact if_pos (by omega)
    simp only [evaluateCondition]
    rw [if_neg hnl]
    simp only [hl]
    rw [if_neg hw0]
    simp only [hp]
    rw [if_neg hb]
    have hz : (b - b) / b / (window : ℚ) = 0 := by
      rw [sub_self, zero_div, zero_div]
    rw [hz, decide_eq_true ht]

/-! ### Lemmas about command execution and rule evaluation -/

theorem execute_command_fields (e : SimulationEngine) (c : Command) :
    (execute_command e c).process = e.process ∧
    (execute_command e c).rules = e.rules ∧
    (execute_command e c).organism_defs = e.organism_defs ∧
    (execute_command e c).logger = e.logger := by
  cases c with
  | SetTemperature aid t => exact ⟨rfl, rfl, rfl, rfl⟩
  | AdjustPh aid t => exact ⟨rfl, rfl, rfl, rfl⟩
  | AdvanceToNextStep => exact ⟨rfl, rfl, rfl, rfl⟩
  | AddMaterial aid mid g =>
    simp only [execute_command]
    split <;> exact ⟨rfl, rfl, rfl, rfl⟩
  | SetOrganismGrowthMultiplier oid mu => exact ⟨rfl, rfl, rfl, rfl⟩

theorem execute_command_index (e : SimulationEngine) (c : Command)
    (hc : c ≠ Command.AdvanceToNextStep) :
    (execute_command e c).current_step_index = e.current_step_index := by
  cases c with
  | SetTemperature aid t => rfl
  | AdjustPh aid t => rfl
  | AdvanceToNextStep => exact absurd rfl hc
  | AddMaterial aid mid g =>
    simp only [execute_command]
    split <;> rfl
  | SetOrganismGrowthMultiplier oid mu => rfl

theorem foldl_execute_command_fields (q : List Command) (m : SimulationEngine)
    (hq : ∀ c ∈ q, c ≠ Command.AdvanceToNextStep) :
    (q.foldl execute_command m).process = m.process ∧
    (q.foldl execute_command m).rules = m.rules ∧
    (q.foldl execute_command m).organism_defs = m.organism_defs ∧
    (q.foldl execute_command m).logger = m.logger ∧
    (q.foldl execute_command m).current_step_index = m.current_step_index := by
  induction q generalizing m with
  | nil => exact ⟨rfl, rfl, rfl, rfl, rfl⟩
  | cons c rest ih =>
    simp only [List.foldl_cons]
    obtain ⟨h1, h2, h3, h4, h5⟩ :=
      ih (execute_command m c) (fun x hx => hq x (List.mem_cons_of_mem c hx))
    obtain ⟨g1, g2, g3, g4⟩ := execute_command_fields m c
    have g5 := execute_command_index m c (hq c (List.mem_cons_self c rest))
    exact ⟨h1.trans g1, h2.trans g2, h3.trans g3, h4.trans g4, h5.trans g5⟩

theorem ruleFold_no_advance (e : SimulationEngine) :
    ∀ (rids : List String) (q q1 : List Command),
    (∀ rid ∈ rids, ∀ r, lookupA e.rules rid = some r →
      r.action ≠ Command.AdvanceToNextStep) →
    (∀ c ∈ q, c ≠ Command.AdvanceToNextStep) →
    ruleFold e rids q = .ok q1 →
    ∀ c ∈ q1, c ≠ Command.AdvanceToNextStep := by
  intro rids
  induction rids with
  | nil =>
    intro q q1 hr hq h
    unfold ruleFold at h
    injection h with h
    subst h
    exact hq
  | cons rid rest ih =>
    intro q q1 hr hq h
    unfold ruleFold at h
    split at h
    · exact ih q q1 (fun x hx => hr x (List.mem_cons_of_mem rid hx)) hq h
    · rename_i rule hrule
      split at h
      · exact RunResult.noConfusion h
      · refine ih (q ++ [rule.action]) q1
          (fun x hx => hr x (List.mem_cons_of_mem rid hx)) (fun c hc => ?_) h
        rcases List.mem_append.mp hc with hc | hc
        · exact hq c hc
        · have hca : c = rule.action := by simpa using hc
          subst hca
          exact hr rid (List.mem_cons_self rid rest) rule hrule
      · exact ih q q1 (fun x hx => hr x (List.mem_cons_of_mem rid hx)) hq h

theorem midTick_ok_fields (fexp : ℚ → ℚ) (e m : SimulationEngine)
    (h : midTick fexp e = .ok m) :
    m.process = e.process ∧ m.rules = e.rules ∧
    m.organism_defs = e.organism_defs ∧ m.logger = e.logger ∧
    m.current_step_index = e.current_step_index := by
  unfold midTick at h
  split at h
  · exact RunResult.noConfusion h
  · exact RunResult.noConfusion h
  · rename_i e2 hb
    split at h
    · exact RunResult.noConfusion h
    · rename_i s3 hu
      injection h with h
      subst h
      obtain ⟨p1, p2, p3, p4, p5, _, _⟩ :=
        execute_biological_tick_ok_fields fexp (preKinetics e) e2 hb
      exact ⟨p1, p2, p3, p5, p4⟩

theorem triggeredCommands_ok_inv (e : SimulationEngine) (sid : String)
    (q : List Command) (h : triggeredCommands e = .ok (sid, q)) :
    ∃ mth, e.process.default_workflow.get? e.current_step_index = some sid ∧
      methodById e sid = some mth ∧
      ruleFold e (mth.required_rule_ids.getD []) [] = .ok q := by
  unfold triggeredCommands at h
  split at h
  · exact RunResult.noConfusion h
  · rename_i wid hw
    split at h
    · exact RunResult.noConfusion h
    · rename_i mth hmb
      split at h
      · rename_i q0 hrf
        injection h with h
        rw [Prod.mk.injEq] at h
        obtain ⟨h1, h2⟩ := h
        subst h1
        subst h2
        exact ⟨mth, hw, hmb, hrf⟩
      · exact RunResult.noConfusion h
      · exact RunResult.noConfusion h

theorem tick_ok_inv (fexp : ℚ → ℚ) (e : SimulationEngine)
    (r : SimulationEngine × Option LogEntry × Bool) (h : tick fexp e = .ok r) :
    (e.process.default_workflow.length ≤ e.current_step_index ∧ r.1 = e) ∨
    (∃ m sid q, midTick fexp e = .ok m ∧ triggeredCommands m = .ok (sid, q) ∧
      r.1 = q.foldl execute_command m) := by
  unfold tick at h
  split at h
  · rename_i hterm
    left
    injection h with h
    subst h
    exact ⟨hterm, rfl⟩
  · right
    split at h
    · exact RunResult.noConfusion h
    · exact RunResult.noConfusion h
    · rename_i m hm
      split at h
      · exact RunResult.noConfusion h
      · exact RunResult.noConfusion h
      · rename_i sq hsq
        injection h with h
        subst h
        exact ⟨m, sq.1, sq.2, hm, by rw [hsq], rfl⟩

theorem tick_preserves_stage (fexp : ℚ → ℚ) (e : SimulationEngine)
    (H : noAdvanceRulesAtStage e = true)
    (r : SimulationEngine × Option LogEntry × Bool) (h : tick fexp e = .ok r) :
    r.1.process = e.process ∧ r.1.rules = e.rules ∧
    r.1.organism_defs = e.organism_defs ∧ r.1.logger = e.logger ∧
    r.1.current_step_index = e.current_step_index := by
  rcases tick_ok_inv fexp e r h with ⟨_, hr⟩ | ⟨m, sid, q, hm, ht, hr⟩
  · rw [hr]
    exact ⟨rfl, rfl, rfl, rfl, rfl⟩
  · obtain ⟨p1, p2, p3, p4, p5⟩ := midTick_ok_fields fexp e m hm
    obtain ⟨mth, hw, hmb, hrf⟩ := triggeredCommands_ok_inv m sid q ht
    have hw' : e.process.default_workflow.get? e.current_step_index = some sid := by
      rw [← p1, ← p5]
      exact hw
    have hmb' : methodById e sid = some mth := by
      unfold methodById at hmb ⊢
      rw [← p1]
      exact hmb
    have hq : ∀ c ∈ q, c ≠ Command.AdvanceToNextStep := by
      refine ruleFold_no_advance m (mth.required_rule_ids.getD []) [] q
        (fun rid hrid rule hlr => ?_) (by simp) hrf
      have hlr' : lookupA e.rules rid = some rule := by
        rw [← p2]
        exact hlr
      unfold noAdvanceRulesAtStage at H
      simp only [hw', hmb'] at H
      have := List.all_eq_true.mp H rid hrid
      simp only [hlr'] at this
      exact of_decide_eq_true this
    obtain ⟨f1, f2, f3, f4, f5⟩ := foldl_execute_command_fields q m hq
    rw [hr]
    exact ⟨f1.trans p1, f2.trans p2, f3.trans p3, f4.trans p4, f5.trans p5⟩

theorem noAdvanceRulesAtStage_congr (e1 e : SimulationEngine)
    (hp : e1.process = e.process) (hr : e1.rules = e.rules)
    (hi : e1.current_step_index = e.current_step_index) :
    noAdvanceRulesAtStage e1 = noAdvanceRulesAtStage e := by
  unfold noAdvanceRulesAtStage methodById
  rw [hp, hr, hi]

/-! ### Claim theorems: rule-driven stage advancement (C2) -/

/-- C2: the workflow stage index only changes by executing an
AdvanceToNextStep command: when none of the rules attached to the active
method has AdvanceToNextStep as its action, the engine stays on the same
stage index for every number of ticks, no matter how many ticks run. -/
theorem C2_stage_advance_only_by_rule (fexp : ℚ → ℚ) (e : SimulationEngine)
    (H : noAdvanceRulesAtStage e = true) :
    ∀ n, (tickN fexp n e).holds
      (fun e1 => e1.current_step_index = e.current_step_index) := by
  intro n
  induction n generalizing e with
  | zero => exact rfl
  | succ k ih =>
    unfold tickN
    split
    · rename_i r hr
      have hfields := tick_preserves_stage fexp e H r hr
      have H1 : noAdvanceRulesAtStage r.1 = true := by
        rw [noAdvanceRulesAtStage_congr r.1 e hfields.1 hfields.2.1
          hfields.2.2.2.2]
        exact H
      have hrec := ih r.1 H1
      cases hres : tickN fexp k r.1 with
      | ok e2 =>
        rw [hres] at hrec
        simp only [RunResult.holds] at hrec ⊢
        rw [hrec, hfields.2.2.2.2]
      | error err => exact trivial
      | panicked => exact trivial
    · trivial
    · trivial

/-! ### Lemmas about the biological tick organism pass -/

theorem bioFold_orgs (fexp : ℚ → ℚ) (e : SimulationEngine) :
    ∀ (l : List (String × IndividualOrganismState)) (acc acc1 : BioAcc),
    bioFold fexp e l acc = .ok acc1 →
    acc1.orgs = acc.orgs ++ l.map (orgUpdate fexp e) := by
  intro l
  induction l with
  | nil =>
    intro acc acc1 h
    unfold bioFold at h
    injection h with h
    subst h
    simp
  | cons p rest ih =>
    intro acc acc1 h
    unfold bioFold at h
    split at h
    · rename_i acc2 hstep
      have horgs : acc2.orgs = acc.orgs ++ [orgUpdate fexp e p] := by
        unfold bioOrgStep at hstep
        split at hstep
        · exact RunResult.noConfusion hstep
        · rename_i od hod
          split at hstep
          · exact RunResult.noConfusion hstep
          · rename_i mth hmth
            injection hstep with hstep
            subst hstep
            unfold orgUpdate
            simp only [hod, hmth]
      rw [ih acc2 acc1 h, horgs, List.map_cons, List.append_assoc,
        List.singleton_append]
    · exact RunResult.noConfusion h
    · exact RunResult.noConfusion h

theorem execute_biological_tick_orgs (fexp : ℚ → ℚ) (e e1 : SimulationEngine)
    (h : execute_biological_tick fexp e = .ok e1) :
    e1.state.organisms.states =
      e.state.organisms.states.map (orgUpdate fexp e) := by
  unfold execute_biological_tick at h
  split at h
  · exact RunResult.noConfusion h
  · exact RunResult.noConfusion h
  · rename_i acc hacc
    injection h with h
    subst h
    simpa using bioFold_orgs fexp e e.state.organisms.states _ acc hacc

theorem updatedBiomass_eq (fexp : ℚ → ℚ) (b r : ℚ) :
    updatedBiomass fexp b r = b * fexp (r * 1) := by
  unfold updatedBiomass
  ring

/-! ### Claim theorems: biomass growth invariants (C6) -/

/-- C6: over one biological tick, under the two facts true of the f64
exponential (it is non-negative everywhere, and at least 1 on
non-negative arguments), every organism keeps its identifier, a
non-negative biomass stays non-negative, and whenever the effective
growth rate is non-negative the biomass does not decrease. -/
theorem C6_biomass_monotone_nonneg (fexp : ℚ → ℚ) (e : SimulationEngine)
    (hexp0 : ∀ r, 0 ≤ fexp r) (hexp1 : ∀ r, 0 ≤ r → 1 ≤ fexp r) :
    (execute_biological_tick fexp e).holds (fun e1 =>
      e1.state.organisms.states.length = e.state.organisms.states.length ∧
      ∀ i p q, e.state.organisms.states.get? i = some p →
        e1.state.organisms.states.get? i = some q →
        q.1 = p.1 ∧
        (0 ≤ p.2.biomass.value → 0 ≤ q.2.biomass.value) ∧
        (∀ od mth, lookupA e.organism_defs p.1 = some od →
          positionalMethod e = some mth →
          0 ≤ effectiveGrowthRate e p.1 od mth →
          0 ≤ p.2.biomass.value →
          p.2.biomass.value ≤ q.2.biomass.value)) := by
  cases hbio : execute_biological_tick fexp e with
  | error err => exact trivial
  | panicked => exact trivial
  | ok e1 =>
    simp only [RunResult.holds]
    have horgs := execute_biological_tick_orgs fexp e e1 hbio
    constructor
    · rw [horgs, List.length_map]
    · intro i p q hp hq
      rw [horgs, List.get?_map, hp] at hq
      injection hq with hq
      subst hq
      cases hod : lookupA e.organism_defs p.1 with
      | none =>
        have hqval : orgUpdate fexp e p = p := by
          unfold orgUpdate
          rw [hod]
        rw [hqval]
        exact ⟨rfl, fun h => h,
          fun od2 mth2 hod2 hmth2 => Option.noConfusion hod2⟩
      | some od =>
        cases hmth : positionalMethod e with
        | none =>
          have hqval : orgUpdate fexp e p = p := by
            unfold orgUpdate
            rw [hod, hmth]
          rw [hqval]
          exact ⟨rfl, fun h => h,
            fun od2 mth2 hod2 hmth2 => Option.noConfusion hmth2⟩
        | some mth =>
          have hqval : orgUpdate fexp e p =
              (p.1, ⟨⟨updatedBiomass fexp p.2.biomass.value
                (effectiveGrowthRate e p.1 od mth), p.2.biomass.unit⟩⟩) := by
            unfold orgUpdate
            rw [hod, hmth]
          rw [hqval]
          refine ⟨rfl, fun h => ?_, fun od2 mth2 hod2 hmth2 hrate hb => ?_⟩
          · rw [updatedBiomass_eq]
            exact mul_nonneg h (hexp0 _)
          · injection hod2 with hod2
            subst hod2
            injection hmth2 with hmth2
            subst hmth2
            rw [updatedBiomass_eq]
            refine le_mul_of_one_le_right hb (hexp1 _ ?_)
            rw [mul_one]
            exact hrate

/-! ### Lemmas about media component id invariance -/

theorem compIds_append (l1 l2 : List DissolvedComponent) :
    compIds (l1 ++ l2) = compIds l1 ++ compIds l2 :=
  List.map_append _ l1 l2

theorem snd_ite {α β : Type} (c : Prop) [Decidable c] (p q : α × β) :
    (if c then p else q).2 = if c then p.2 else q.2 := by
  split <;> rfl

theorem secreteStep_fresh (e : SimulationEngine) (sf b : ℚ)
    (acc : List (String × ℚ) × List DissolvedComponent)
    (sdef : MediaExchangeRate)
    (h : FreshByproducts (dissolvedComponentsOf e) acc.2) :
    FreshByproducts (dissolvedComponentsOf e) (secreteStep e sf b acc sdef).2 := by
  unfold secreteStep
  simp only [snd_ite]
  by_cases hguard : ((e.state.media.composition.dissolved_components.find?
      (fun c => c.molecule_id == sdef.molecule_id)).isNone
      && !(acc.2.any (fun bb => bb.molecule_id == sdef.molecule_id))) = true
  · rw [if_pos hguard]
    rw [Bool.and_eq_true, Bool.not_eq_true', Option.isNone_iff_eq_none] at hguard
    obtain ⟨hfind, hany⟩ := hguard
    split
    all_goals try split
    all_goals try exact h
    all_goals unfold FreshByproducts
    all_goals refine ⟨?_, ?_⟩
    all_goals first
      | (rw [compIds_append]
         rw [show compIds [(⟨sdef.molecule_id, sdef.molecule_name,
             ⟨0, "g/L"⟩⟩ : DissolvedComponent)] = [sdef.molecule_id] from rfl]
         refine List.Nodup.append h.1 (List.nodup_singleton _) ?_
         rw [List.disjoint_singleton]
         intro hmem
         unfold compIds at hmem
         rw [List.mem_map] at hmem
         obtain ⟨bb, hbb, hbid⟩ := hmem
         have hb2 := List.any_eq_false.mp hany bb hbb
         exact hb2 (beq_iff_eq.mpr hbid))
      | (intro bb hbb
         rcases List.mem_append.mp hbb with hbb | hbb
         · exact h.2 bb hbb
         · rw [List.mem_singleton] at hbb
           subst hbb
           exact hfind)
  · rw [if_neg hguard]
    simp only [ite_self]
    exact h

theorem secreteFold_fresh (e : SimulationEngine) (sf b : ℚ) :
    ∀ (sdefs : List MediaExchangeRate)
      (acc : List (String × ℚ) × List DissolvedComponent),
    FreshByproducts (dissolvedComponentsOf e) acc.2 →
    FreshByproducts (dissolvedComponentsOf e) (secreteFold e sf b sdefs acc).2 := by
  intro sdefs
  induction sdefs with
  | nil => exact fun acc h => h
  | cons d rest ih =>
    intro acc h
    exact ih (secreteStep e sf b acc d) (secreteStep_fresh e sf b acc d h)

theorem bioOrgStep_fresh (fexp : ℚ → ℚ) (e : SimulationEngine) (acc acc1 : BioAcc)
    (p : String × IndividualOrganismState)
    (h : bioOrgStep fexp e acc p = .ok acc1)
    (hf : FreshByproducts (dissolvedComponentsOf e) acc.new_byproducts) :
    FreshByproducts (dissolvedComponentsOf e) acc1.new_byproducts := by
  unfold bioOrgStep at h
  split at h
  · exact RunResult.noConfusion h
  · split at h
    · exact RunResult.noConfusion h
    · injection h with h
      subst h
      exact secreteFold_fresh e _ _ _ _ hf

theorem bioFold_fresh (fexp : ℚ → ℚ) (e : SimulationEngine) :
    ∀ (l : List (String × IndividualOrganismState)) (acc acc1 : BioAcc),
    bioFold fexp e l acc = .ok acc1 →
    FreshByproducts (dissolvedComponentsOf e) acc.new_byproducts →
    FreshByproducts (dissolvedComponentsOf e) acc1.new_byproducts := by
  intro l
  induction l with
  | nil =>
    intro acc acc1 h hf
    unfold bioFold at h
    injection h with h
    subst h
    exact hf
  | cons p rest ih =>
    intro acc acc1 h hf
    unfold bioFold at h
    split at h
    · rename_i acc2 hstep
      exact ih acc2 acc1 h (bioOrgStep_fresh fexp e acc acc2 p hstep hf)
    · exact RunResult.noConfusion h
    · exact RunResult.noConfusion h

theorem execute_biological_tick_nodup (fexp : ℚ → ℚ) (e e1 : SimulationEngine)
    (h : execute_biological_tick fexp e = .ok e1)
    (hn : NoDupComponentIds e) : NoDupComponentIds e1 := by
  unfold execute_biological_tick at h
  split at h
  · exact RunResult.noConfusion h
  · exact RunResult.noConfusion h
  · rename_i acc hacc
    injection h with h
    subst h
    have hfresh : FreshByproducts (dissolvedComponentsOf e) acc.new_byproducts :=
      bioFold_fresh fexp e e.state.organisms.states _ acc hacc
        ⟨List.nodup_nil, fun b hb => absurd hb (List.not_mem_nil b)⟩
    unfold NoDupComponentIds at hn ⊢
    show (compIds (applyDeltas
      (e.state.media.composition.dissolved_components ++ acc.new_byproducts)
      acc.media_deltas)).Nodup
    rw [compIds_applyDeltas, compIds_append]
    refine List.Nodup.append hn hfresh.1 ?_
    intro x hx1 hx2
    unfold compIds at hx1 hx2
    rw [List.mem_map] at hx1 hx2
    obtain ⟨c, hc, hcx⟩ := hx1
    obtain ⟨bb, hbb, hbx⟩ := hx2
    have hfind := hfresh.2 bb hbb
    rw [List.find?_eq_none] at hfind
    apply hfind c hc
    rw [beq_iff_eq]
    exact hcx.trans hbx.symm

theorem execute_unit_operation_tick_comps (e : SimulationEngine)
    (s : SimulationState) (h : execute_unit_operation_tick e = some s) :
    compIds s.media.composition.dissolved_components =
      compIds e.state.media.composition.dissolved_components := by
  unfold execute_unit_operation_tick at h
  split at h
  · exact Option.noConfusion h
  · split at h
    · split at h
      · injection h with h
        subst h
        rfl
      · split at h
        · injection h with h
          subst h
          apply updateFirst_map
          intro a
          rfl
        · injection h with h
          subst h
          rfl
    · injection h with h
      subst h
      rfl

theorem execute_command_comps (e : SimulationEngine) (c : Command) :
    compIds (dissolvedComponentsOf (execute_command e c)) =
      compIds (dissolvedComponentsOf e) := by
  cases c with
  | SetTemperature aid t => rfl
  | AdjustPh aid t => rfl
  | AdvanceToNextStep => rfl
  | AddMaterial aid mid g =>
    simp only [execute_command]
    split
    · rfl
    · unfold dissolvedComponentsOf compIds
      apply updateFirst_map
      intro a
      rfl
  | SetOrganismGrowthMultiplier oid mu => rfl

theorem foldl_execute_command_comps (q : List Command) (m : SimulationEngine) :
    compIds (dissolvedComponentsOf (q.foldl execute_command m)) =
      compIds (dissolvedComponentsOf m) := by
  induction q generalizing m with
  | nil => rfl
  | cons c rest ih =>
    simp only [List.foldl_cons]
    exact (ih (execute_command m c)).trans (execute_command_comps m c)

theorem midTick_nodup (fexp : ℚ → ℚ) (e m : SimulationEngine)
    (h : midTick fexp e = .ok m) (hn : NoDupComponentIds e) :
    NoDupComponentIds m := by
  unfold midTick at h
  split at h
  · exact RunResult.noConfusion h
  · exact RunResult.noConfusion h
  · rename_i e2 hb
    split at h
    · exact RunResult.noConfusion h
    · rename_i s3 hu
      injection h with h
      subst h
      have h2 : NoDupComponentIds e2 :=
        execute_biological_tick_nodup fexp (preKinetics e) e2 hb hn
      unfold NoDupComponentIds at h2 ⊢
      show (compIds s3.media.composition.dissolved_components).Nodup
      rw [execute_unit_operation_tick_comps e2 s3 hu]
      exact h2

theorem tick_nodup (fexp : ℚ → ℚ) (e : SimulationEngine)
    (r : SimulationEngine × Option LogEntry × Bool)
    (h : tick fexp e = .ok r) (hn : NoDupComponentIds e) :
    NoDupComponentIds r.1 := by
  rcases tick_ok_inv fexp e r h with ⟨_, hr⟩ | ⟨m, sid, q, hm, ht, hr⟩
  · rw [hr]
    exact hn
  · have h2 := midTick_nodup fexp e m hm hn
    rw [hr]
    unfold NoDupComponentIds at h2 ⊢
    rw [foldl_execute_command_comps q m]
    exact h2

theorem tickN_nodup (fexp : ℚ → ℚ) :
    ∀ (n : ℕ) (e : SimulationEngine), NoDupComponentIds e →
    (tickN fexp n e).holds NoDupComponentIds := by
  intro n
  induction n with
  | zero => exact fun e hn => hn
  | succ k ih =>
    intro e hn
    unfold tickN
    split
    · rename_i r hr
      exact ih r.1 (tick_nodup fexp e r hr hn)
    · exact trivial
    · exact trivial

/-! ### Claim theorems: no duplicate component ids (C8) -/

/-- C8: starting from a media composition whose molecule ids are pairwise
distinct, the dissolved-components list never holds two entries with the
same molecule id again: every command execution preserves the id list
outright, and any number of ticks (including byproduct secretion, which
inserts at most one fresh zero-concentration entry per new molecule and
checks both the composition and the pending insertions first) keeps the
ids pairwise distinct. -/
theorem C8_no_duplicate_component_ids (fexp : ℚ → ℚ) (e : SimulationEngine)
    (hn : NoDupComponentIds e) :
    (∀ c, NoDupComponentIds (execute_command e c)) ∧
    (∀ n, (tickN fexp n e).holds NoDupComponentIds) := by
  constructor
  · intro c
    unfold NoDupComponentIds at hn ⊢
    rw [execute_command_comps e c]
    exact hn
  · intro n
    exact tickN_nodup fexp n e hn

/-! ### Concrete witnesses -/

/-- C1 witness: on the concrete test engine, one tick logs the snapshot
of the concrete post-kinetics engine and then applies the one triggered
set-point command. -/
theorem C1_witness :
    tick fexp1 baseEngine = .ok
      ([Command.SetTemperature "a1" 25].foldl execute_command baseMidEngine,
        (if baseMidEngine.logger then some (mkLogEntry baseMidEngine.state "m1")
          else none), true) :=
  C1_commands_after_logging fexp1 baseEngine baseMidEngine "m1"
    [Command.SetTemperature "a1" 25] (by decide)
    (by with_unfolding_all decide) (by with_unfolding_all decide)

/-- C2 witness: the concrete engine, whose only stage-one rule adjusts a
set-point, stays on stage index 0 over five ticks. -/
theorem C2_witness :
    (tickN fexp1 5 baseEngine).holds
      (fun e1 => e1.current_step_index = baseEngine.current_step_index) :=
  C2_stage_advance_only_by_rule fexp1 baseEngine
    (by with_unfolding_all decide) 5

/-- C3 witness: the concrete engine ticks to the same outcome whether a
stale event is left in the state or not. -/
theorem C3_witness :
    tick fexp1 { baseEngine with state := { baseEngine.state with
        events := [SimulationEvent.MaterialAdded "CHEBI:17234" 1] } } =
    tick fexp1 { baseEngine with state := { baseEngine.state with
        events := [] } } :=
  C3_events_cleared_each_tick fexp1 baseEngine
    [SimulationEvent.MaterialAdded "CHEBI:17234" 1] [] (by decide)

/-- C4 witness: concrete evaluations of the amended comparison semantics
on present and absent molecules and asset parameters. -/
theorem C4_witness :
    evaluateCondition baseEngine (.MediaValue "CHEBI:17234" .GreaterThan 5) =
      some (claimedComparison .GreaterThan glucose.concentration.value 5) ∧
    evaluateCondition baseEngine (.MediaValue "absent" .LessThan 5) =
      some false ∧
    evaluateCondition baseEngine (.AssetValue "a1" "temperature" .EqualTo 25) =
      some (claimedComparison .EqualTo 25 25) ∧
    evaluateCondition baseEngine (.AssetValue "a1" "conductivity" .LessThan 1) =
      some false := by
  refine ⟨?_, ?_, ?_, ?_⟩
  · exact (C4_amended_condition_comparison baseEngine "CHEBI:17234" "a1"
      "temperature" .GreaterThan 5).2.1 glucose (by with_unfolding_all decide)
  · exact (C4_amended_condition_comparison baseEngine "absent" "a1"
      "temperature" .LessThan 5).1 (by with_unfolding_all decide)
  · exact ((C4_amended_condition_comparison baseEngine "x" "a1"
      "temperature" .EqualTo 25).2.2.2 ⟨25, 7⟩
      (by with_unfolding_all decide)).1 rfl
  · exact ((C4_amended_condition_comparison baseEngine "x" "a1"
      "conductivity" .LessThan 1).2.2.2 ⟨25, 7⟩
      (by with_unfolding_all decide)).2.2 (by decide) (by decide)

/-- C5 witness: five equal nonzero samples evaluate true against the
positive threshold 1/100, and three samples are too few for window 5. -/
theorem C5_witness :
    evaluateCondition flatHistoryEngine (.BiomassStationary (1 / 100) 5) =
      some true ∧
    evaluateCondition { baseEngine with biomass_history := [2, 2, 2] }
      (.BiomassStationary (1 / 100) 5) = some false := by
  constructor
  · exact (C5_amended_biomass_stationary flatHistoryEngine (1 / 100) 5
      (by decide)).2.2 2 (by norm_num) (by norm_num)
      (by with_unfolding_all decide)
  · exact (C5_amended_biomass_stationary
      { baseEngine with biomass_history := [2, 2, 2] } (1 / 100) 5
      (by decide)).1 (by with_unfolding_all decide)

/-- C6 witness: the biomass invariants instantiated on the concrete test
engine with the constant-one stand-in for the exponential. -/
theorem C6_witness :
    (execute_biological_tick fexp1 baseEngine).holds (fun e1 =>
      e1.state.organisms.states.length =
        baseEngine.state.organisms.states.length ∧
      ∀ i p q, baseEngine.state.organisms.states.get? i = some p →
        e1.state.organisms.states.get? i = some q →
        q.1 = p.1 ∧
        (0 ≤ p.2.biomass.value → 0 ≤ q.2.biomass.value) ∧
        (∀ od mth, lookupA baseEngine.organism_defs p.1 = some od →
          positionalMethod baseEngine = some mth →
          0 ≤ effectiveGrowthRate baseEngine p.1 od mth →
          0 ≤ p.2.biomass.value →
          p.2.biomass.value ≤ q.2.biomass.value)) :=
  C6_biomass_monotone_nonneg fexp1 baseEngine (fun r => zero_le_one)
    (fun r hr => le_refl 1)

/-- C7 witness: the three stress-factor branches evaluated at concrete
temperatures against the tolerance 20-25-30. -/
theorem C7_witness :
    stressFactor 19 ⟨⟨25, "C"⟩, ⟨20, 30⟩⟩ = 0.1 ∧
    stressFactor 24 ⟨⟨25, "C"⟩, ⟨20, 30⟩⟩ = 0.1 + 0.9 * (24 - 20) / (25 - 20) ∧
    stressFactor 27 ⟨⟨25, "C"⟩, ⟨20, 30⟩⟩ = 1 - 0.9 * (27 - 25) / (30 - 25) := by
  refine ⟨?_, ?_, ?_⟩
  · exact (C7_temperature_stress_factor 19 20 25 30 "C" (by norm_num)
      (by norm_num)).1 (Or.inl (by norm_num))
  · exact (C7_temperature_stress_factor 24 20 25 30 "C" (by norm_num)
      (by norm_num)).2.1 (by norm_num) (by norm_num)
  · exact (C7_temperature_stress_factor 27 20 25 30 "C" (by norm_num)
      (by norm_num)).2.2 (by norm_num) (by norm_num)

/-- C8 witness: the engine whose organism keeps secreting a fresh
byproduct holds no duplicate component ids after a command and after
three ticks. -/
theorem C8_witness :
    NoDupComponentIds (execute_command secretingEngine
      (Command.AddMaterial "a1" "CHEBI:17234" 5)) ∧
    (tickN fexp1 3 secretingEngine).holds NoDupComponentIds := by
  constructor
  · exact (C8_no_duplicate_component_ids fexp1 secretingEngine
      (by unfold NoDupComponentIds; with_unfolding_all decide)).1
      (Command.AddMaterial "a1" "CHEBI:17234" 5)
  · exact (C8_no_duplicate_component_ids fexp1 secretingEngine
      (by unfold NoDupComponentIds; with_unfolding_all decide)).2 3

/-- C9 witness: adding material to an absent molecule leaves the concrete
engine unchanged; adding 5 grams of glucose to the 1 L media raises the
glucose concentration by 5 and emits a MaterialAdded event. -/
theorem C9_witness :
    execute_command baseEngine (.AddMaterial "a1" "absent" 5) = baseEngine ∧
    (dissolvedComponentsOf (execute_command baseEngine
        (.AddMaterial "a1" "CHEBI:17234" 5))).find?
        (fun x => x.molecule_id == "CHEBI:17234") =
      some ⟨glucose.molecule_id, glucose.molecule_name,
        ⟨glucose.concentration.value + 5 / baseEngine.state.media.volume.value,
          glucose.concentration.unit⟩⟩ ∧
    (execute_command baseEngine (.AddMaterial "a1" "CHEBI:17234" 5)).state.events =
      baseEngine.state.events ++ [SimulationEvent.MaterialAdded "CHEBI:17234" 5] := by
  refine ⟨?_, ?_, ?_⟩
  · exact (C9_add_material_semantics baseEngine "a1" "absent" 5).1
      (by with_unfolding_all decide)
  · exact ((C9_add_material_semantics baseEngine "a1" "CHEBI:17234" 5).2
      glucose (by with_unfolding_all decide)).1
  · exact ((C9_add_material_semantics baseEngine "a1" "CHEBI:17234" 5).2
      glucose (by with_unfolding_all decide)).2.2.2.1

/-- C10 witness: with one method and workflow index 1 the tick panics;
with the methods list swapped against the workflow, position 0 selects
method2 although the active workflow stage is m1, whose id lookup yields
the different method1. -/
theorem C10_witness :
    tick fexp1 shortMethodsEngine = .panicked ∧
    positionalMethod swappedMethodsEngine = some method2 ∧
    method1 ≠ method2 := by
  refine ⟨?_, ?_, ?_⟩
  · exact (C10_positional_method_selection fexp1 shortMethodsEngine
      (by decide)).1 (by with_unfolding_all decide) (by decide)
  · exact ((C10_positional_method_selection fexp1 swappedMethodsEngine
      (by decide)).2 method2 "m1" (by decide) (by decide)).1
  · exact ((C10_positional_method_selection fexp1 swappedMethodsEngine
      (by decide)).2 method2 "m1" (by decide) (by decide)).2
      (by decide) method1 (by with_unfolding_all decide)

end Bioforge
